import Mathlib

/-!
Verification of the Fabric Capacity Extension core (src/popup.js).

The popup logic is a single class FabricCapacityManager.  Below, each JS
method relevant to the frozen claims is embedded as a pure Lean function:

* stateful browser collaborators (chrome.storage, fetch, launchWebAuthFlow,
  the DOM) become explicit parameters and return values;
* JS strings are modelled as Lean String where only equality and
  concatenation matter, and as List Nat of UTF-16 code units where
  charCodeAt arithmetic matters (generateTokenHash), and as List Char
  where character-level splitting matters (decodeJwtToken);
* JS machine integers: the bitwise steps of generateTokenHash coerce to
  32-bit two\x27s complement, modelled on Int with explicit emod 2^32.

Section names and definition names follow the source method names.
-/

namespace FabricCapacityManager

/-- JS `x || defaultValue` on a possibly-absent string: both null/undefined
and the empty string are falsy and yield the default. -/
def jsOrDefault (s : Option String) (d : String) : String :=
  match s with
  | some v => if v = "" then d else v
  | none => d

/-- JS truthiness of a possibly-absent string: null/undefined and "" are falsy. -/
def jsTruthy (s : Option String) : Bool :=
  match s with
  | some v => v != ""
  | none => false

/-- JS `haystack.includes(needle)` (substring containment). -/
def containsSub (s pat : String) : Bool :=
  (List.range (s.data.length + 1)).any fun i => List.isPrefixOf pat.data (s.data.drop i)

/-! ## generateState (popup.js lines 344-348)

```js
generateState() {
  const array = new Uint32Array(4);
  crypto.getRandomValues(array);
  return Array.from(array, dec => ('0' + dec.toString(16)).substr(-2)).join('');
}
```
Each 32-bit word is rendered in lowercase hex without leading zeros
(`Number.prototype.toString(16)`), a single '0' is prepended, and only the
last two characters are kept (`substr(-2)`). -/

/-- Lowercase hexadecimal digit, as produced by JS `Number.toString(16)`. -/
def hexDigit (n : Nat) : Char :=
  match n with
  | 0 => '0' | 1 => '1' | 2 => '2' | 3 => '3'
  | 4 => '4' | 5 => '5' | 6 => '6' | 7 => '7'
  | 8 => '8' | 9 => '9' | 10 => 'a' | 11 => 'b'
  | 12 => 'c' | 13 => 'd' | 14 => 'e' | _ => 'f'

/-- JS `n.toString(16)` for a nonnegative integer: most significant digit
first, no leading zeros, and the single digit "0" for zero. -/
def toHex (n : Nat) : List Char :=
  if _h : n < 16 then [hexDigit n]
  else toHex (n / 16) ++ [hexDigit (n % 16)]
termination_by n
decreasing_by omega

/-- JS `s.substr(-2)`: the last two characters (for strings of length at least 2). -/
def last2 (l : List Char) : List Char :=
  l.drop (l.length - 2)

/-- The mapper `dec => ('0' + dec.toString(16)).substr(-2)` applied to one word. -/
def stateWord (dec : Nat) : List Char :=
  last2 ('0' :: toHex dec)

/-- generateState applied to the four random 32-bit words drawn from
`crypto.getRandomValues(new Uint32Array(4))`. -/
def generateState (w0 w1 w2 w3 : Nat) : List Char :=
  stateWord w0 ++ stateWord w1 ++ stateWord w2 ++ stateWord w3

/-! ## generateTokenHash (popup.js lines 353-363)

```js
generateTokenHash(token) {
  let hash = 0;
  if (token.length === 0) return hash.toString();
  for (let i = 0; i < Math.min(token.length, 100); i++) {
    const char = token.charCodeAt(i);
    hash = ((hash << 5) - hash) + char;
    hash = hash & hash; // Convert to 32-bit integer
  }
  return Math.abs(hash).toString();
}
```
`hash` stays a 32-bit signed integer: `hash << 5` coerces to int32 and wraps,
the sum is exact in doubles, and `hash & hash` coerces back to int32.
The token is the list of its UTF-16 code units. -/

/-- JS ToInt32: reduce an integer to 32-bit two\x27s complement. -/
def toInt32 (n : Int) : Int :=
  (n + 2 ^ 31) % 2 ^ 32 - 2 ^ 31

/-- One loop iteration of generateTokenHash. -/
def hashStep (hash : Int) (char : Nat) : Int :=
  toInt32 (toInt32 (hash * 32) - hash + char)

/-- generateTokenHash: 32-bit rolling hash of the first 100 code units,
rendered as the decimal string of its absolute value. -/
def generateTokenHash (token : List Nat) : String :=
  if token.length = 0 then "0"
  else toString ((List.foldl hashStep 0 (token.take 100)).natAbs)

/-! ## getCachedToken (popup.js lines 368-418)

chrome.storage.local holds `accessToken` (string), `tokenExpiry` (decimal
string of a millisecond instant, modelled already parsed as Int) and
`sessionInfo` (record with `tokenHash`).  The read resolves null when a key
is missing or falsy, when the stored fingerprint disagrees with the hash of
the stored token, or when fewer than two minutes of lifetime remain. -/

structure SessionInfo where
  cachedAt : Int
  tenantId : Option String
  userPrincipalName : Option String
  tokenHash : String
  deriving DecidableEq

structure TokenStorage where
  accessToken : Option (List Nat)
  tokenExpiry : Option Int
  sessionInfo : Option SessionInfo
  deriving DecidableEq

/-- The 2-minute buffer of getCachedToken, in milliseconds. -/
def tokenBufferMs : Int := 2 * 60 * 1000

/-- The session-integrity check: when sessionInfo exists, the stored
fingerprint must equal the hash of the currently stored token. -/
def fingerprintOk (sessionInfo : Option SessionInfo) (tok : List Nat) : Bool :=
  match sessionInfo with
  | some si => si.tokenHash == generateTokenHash tok
  | none => true

/-- getCachedToken: resolves the stored token, or none on any of the three
guards (missing/falsy keys, fingerprint mismatch, expiry within the buffer). -/
def getCachedToken (s : TokenStorage) (now : Int) : Option (List Nat) :=
  match s.accessToken, s.tokenExpiry with
  | some tok, some expiryTime =>
    if tok = [] then none
    else if fingerprintOk s.sessionInfo tok then
      if now ≥ expiryTime - tokenBufferMs then none
      else some tok
    else none
  | _, _ => none

/-! ## extractTokenFromUrl (popup.js lines 304-339)

The response URL fragment is parsed by the platform URLSearchParams; the
already-parsed parameters are the input here.  `params.get(k)` yields null
for an absent key, modelled as Option String.  decodeURIComponent on the
error description is an injective platform transcoding and is left as the
raw string. -/

structure OAuthFragment where
  state : Option String
  error : Option String
  errorDescription : Option String
  accessToken : Option String
  expiresIn : Option String
  tokenType : Option String
  deriving DecidableEq

/-- The record returned by extractTokenFromUrl: token, lifetime in seconds
(none models the NaN that parseInt yields on a non-numeric string), type. -/
structure TokenInfo where
  accessToken : String
  expiresIn : Option Nat
  tokenType : Option String
  deriving DecidableEq

/-- JS `parseInt` restricted to the shapes that occur here: the longest
leading run of decimal digits, none when there is no such digit (NaN). -/
def jsParseIntNat (s : String) : Option Nat :=
  let ds := s.data.takeWhile Char.isDigit
  if ds = [] then none
  else some (ds.foldl (fun n c => n * 10 + (c.toNat - 48)) 0)

/-- extractTokenFromUrl: verify the echoed state, surface a provider error,
then extract the access token and its lifetime. -/
def extractTokenFromUrl (params : OAuthFragment) (expectedState : String) :
    Except String TokenInfo :=
  if params.state ≠ some expectedState then
    Except.error "State parameter mismatch - possible CSRF attack"
  else if jsTruthy params.error then
    Except.error ("OAuth2 error: " ++ params.error.getD "" ++ " - " ++
      jsOrDefault params.errorDescription "Unknown error")
  else if jsTruthy params.accessToken then
    Except.ok
      { accessToken := params.accessToken.getD ""
        expiresIn :=
          if jsTruthy params.expiresIn then jsParseIntNat (params.expiresIn.getD "")
          else some 3600
        tokenType := params.tokenType }
  else
    Except.error "No access token found in OAuth2 response"

/-! ## decodeJwtToken (popup.js lines 1355-1375)

```js
decodeJwtToken(token) {
  try {
    const parts = token.split('.');
    if (parts.length !== 3) { ...; return null; }
    const payload = parts[1];
    const paddedPayload = payload + '='.repeat((4 - payload.length % 4) % 4);
    const decodedPayload = atob(paddedPayload with minus replaced by plus and underscore by slash);
    return JSON.parse(decodedPayload);
  } catch (error) { ...; return null; }
}
```
`atob` and `JSON.parse` are platform builtins; each may throw, which the
surrounding try/catch converts to null.  They are parameters returning
Option, none standing for a thrown InvalidCharacterError / SyntaxError. -/

/-- JS `token.split(CHR-2E)` on a character list (the separator is the dot). -/
def splitOnDot : List Char → List (List Char)
  | [] => [[]]
  | c :: cs =>
    let rest := splitOnDot cs
    if c = '.' then [] :: rest
    else
      match rest with
      | r :: rs => (c :: r) :: rs
      | [] => [[c]]

/-- Base64 padding restoration: append CHR-3D to a multiple-of-4 length. -/
def padPayload (payload : List Char) : List Char :=
  payload ++ List.replicate ((4 - payload.length % 4) % 4) '='

/-- Base64url alphabet translation: minus to plus, underscore to slash. -/
def base64urlTranslate (l : List Char) : List Char :=
  l.map fun c => if c = '-' then '+' else if c = '_' then '/' else c

/-- decodeJwtToken: split into three dot-separated parts, pad and translate
the payload, base64-decode it and parse it; null on any failure. -/
def decodeJwtToken {α : Type} (atob : List Char → Option (List Char))
    (jsonParse : List Char → Option α) (token : List Char) : Option α :=
  match splitOnDot token with
  | [_, payload, _] =>
    match atob (base64urlTranslate (padPayload payload)) with
    | none => none
    | some decodedPayload => jsonParse decodedPayload
  | _ => none

/-! ## makeApiCall (popup.js lines 1139-1252)

The underlying transport is `fetch` on the request URL; successive fetches
of that URL are modelled as an oracle `transport : Nat -> HttpResponse`
(index 0 the original call, index 1 the retry).  The function result is
paired with the number of transport invocations.

The 401 path first runs handleTokenExpiry (popup.js lines 532-552), whose
net effect is either a fresh token from silent renewal or null after the
cache is cleared; it is modelled by its result `silentRenew : Option String`.
When silent renewal fails, `authenticate()` performs the interactive flow;
its outcome (token or thrown error) is `interactiveAuth`.  Neither touches
the request-URL transport. -/

inductive HttpMethod
  | GET
  | POST
  | PATCH
  deriving DecidableEq

structure HttpResponse where
  status : Nat
  statusText : String
  body : String
  deriving DecidableEq

/-- fetch Response.ok: status in the 200-299 range. -/
def responseOk (r : HttpResponse) : Bool :=
  decide (200 ≤ r.status ∧ r.status < 300)

/-- The parsed outcome of a successful call: the success marker returned
for accepted state-changing requests, the empty object returned for an
empty body, or the JSON.parse of a non-empty body (kept as raw text). -/
inductive ApiResult
  | successMarker
  | emptyObject
  | parsed (body : String)
  deriving DecidableEq

/-- The tail of the success path (popup.js lines 1246-1251): POST/PATCH with
status 200 or 202 resolve to the marker, otherwise parse the body. -/
def finishResponse (method : HttpMethod) (r : HttpResponse) : ApiResult :=
  if (method = HttpMethod.POST ∨ method = HttpMethod.PATCH) ∧
      (r.status = 200 ∨ r.status = 202) then ApiResult.successMarker
  else if r.body = "" then ApiResult.emptyObject
  else ApiResult.parsed r.body

/-- The 403 classification of the first response (popup.js lines 1229-1240). -/
def forbiddenMessage (errorText : String) : String :=
  "Insufficient permissions to perform this operation." ++
    (if containsSub errorText "admin consent" || containsSub errorText "consent" then
      " Admin consent may be required. Please contact your Azure administrator."
    else if containsSub errorText "RBAC" || containsSub errorText "role" then
      " You may need additional Azure RBAC permissions."
    else "")

/-- Outcome of the retried request after a successful silent renewal
(popup.js lines 1173-1195). -/
def finishRetrySilent (method : HttpMethod) (r : HttpResponse) :
    Except String ApiResult :=
  if responseOk r then
    if method = HttpMethod.POST ∧ r.status = 202 then Except.ok ApiResult.successMarker
    else if method = HttpMethod.PATCH ∧ (r.status = 200 ∨ r.status = 202) then
      Except.ok ApiResult.successMarker
    else if r.body = "" then Except.ok ApiResult.emptyObject
    else Except.ok (ApiResult.parsed r.body)
  else if r.status = 403 then
    Except.error "Insufficient permissions. Admin consent may be required for full functionality."
  else
    Except.error ("API call failed after retry: " ++ toString r.status ++ " " ++ r.statusText)

/-- Outcome of the retried request after the interactive fallback
(popup.js lines 1203-1225); identical but for the terminal message. -/
def finishRetryInteractive (method : HttpMethod) (r : HttpResponse) :
    Except String ApiResult :=
  if responseOk r then
    if method = HttpMethod.POST ∧ r.status = 202 then Except.ok ApiResult.successMarker
    else if method = HttpMethod.PATCH ∧ (r.status = 200 ∨ r.status = 202) then
      Except.ok ApiResult.successMarker
    else if r.body = "" then Except.ok ApiResult.emptyObject
    else Except.ok (ApiResult.parsed r.body)
  else if r.status = 403 then
    Except.error "Insufficient permissions. Admin consent may be required for full functionality."
  else
    Except.error ("API call failed after authentication retry: " ++
      toString r.status ++ " " ++ r.statusText)

/-- makeApiCall: result and number of invocations of the request transport. -/
def makeApiCall (method : HttpMethod) (accessToken : Option String)
    (transport : Nat → HttpResponse) (silentRenew : Option String)
    (interactiveAuth : Except String String) : Except String ApiResult × Nat :=
  match accessToken with
  | none => (Except.error "No access token available", 0)
  | some _ =>
    let response := transport 0
    if responseOk response then
      (Except.ok (finishResponse method response), 1)
    else if response.status = 401 then
      match silentRenew with
      | some _ => (finishRetrySilent method (transport 1), 2)
      | none =>
        match interactiveAuth with
        | Except.error e => (Except.error e, 1)
        | Except.ok _ => (finishRetryInteractive method (transport 1), 2)
    else if response.status = 403 then
      (Except.error (forbiddenMessage response.body), 1)
    else
      (Except.error ("API call failed: " ++ toString response.status ++ " " ++
        response.statusText), 1)

/-! ## Capacity discovery (popup.js lines 686-833)

A raw capacity is one element of the `value` array of the control-plane
response for a subscription; `sku?.name` and `properties?.state` may be
absent.  getCapacitiesForSubscription annotates each with the owning
subscription id and a synthesized display name.  The per-subscription
outcome of makeApiCall (parsed value array, or a thrown error message) is
the parameter `api`. -/

structure RawCapacity where
  id : String
  name : String
  skuName : Option String
  state : Option String
  deriving DecidableEq

structure Capacity where
  id : String
  name : String
  skuName : Option String
  state : Option String
  subscriptionId : String
  displayName : String
  deriving DecidableEq

/-- getCapacitiesForSubscription (popup.js lines 812-833): annotate each
returned capacity; a 404 or ResourceProviderNotRegistered error means the
Fabric provider is absent from the subscription and yields the empty list;
any other error is rethrown. -/
def getCapacitiesForSubscription (apiResult : Except String (List RawCapacity))
    (subscriptionId : String) : Except String (List Capacity) :=
  match apiResult with
  | Except.ok value =>
    Except.ok (value.map fun capacity =>
      { id := capacity.id
        name := capacity.name
        skuName := capacity.skuName
        state := capacity.state
        subscriptionId := subscriptionId
        displayName := capacity.name ++ " (" ++ jsOrDefault capacity.state "Unknown" ++ ")" })
  | Except.error msg =>
    if containsSub msg "404" || containsSub msg "ResourceProviderNotRegistered" then
      Except.ok []
    else Except.error msg

/-- The aggregation loop shared by loadCapacities (popup.js lines 703-712)
and refreshCapacities (popup.js lines 768-776): push the capacities of each
subscription in order; a failing subscription is logged and contributes
nothing. -/
def loadCapacities (subscriptionIds : List String)
    (api : String → Except String (List RawCapacity)) : List Capacity :=
  match subscriptionIds with
  | [] => []
  | sid :: rest =>
    (match getCapacitiesForSubscription (api sid) sid with
     | Except.ok cs => cs
     | Except.error _ => []) ++ loadCapacities rest api

/-- JS `[...new Set(l)]`: deduplication keeping first occurrences in order. -/
def jsSetDedup (l : List String) : List String :=
  l.foldl (fun acc x => if x ∈ acc then acc else acc ++ [x]) []

/-- JS `Array.prototype.findIndex`: index of the first match, none for -1. -/
def jsFindIndex {α : Type} (p : α → Bool) : List α → Option Nat
  | [] => none
  | x :: xs => if p x then some 0 else (jsFindIndex p xs).map (· + 1)

/-! ## refreshCapacities (popup.js lines 728-798)

State touched: the in-memory capacity list, and the dropdown value (none
for the empty placeholder value).  With no token the method defers to a
full load with authentication; while the loading indicator shows it skips;
otherwise it re-queries the subscriptions known from the current list,
replaces the list, repopulates the dropdown (which resets the DOM
selection), and re-selects by the previously selected capacity id when an
entry with that id exists in the fresh list.  An empty known-subscription
set also falls back to the full load and returns before any re-selection
(so does the no-token path), leaving the repopulated dropdown at its
placeholder. -/
def refreshCapacities (accessToken : Option String) (loading : Bool)
    (allSubscriptionIds : List String) (capacities : List Capacity)
    (selectedValue : Option Nat)
    (api : String → Except String (List RawCapacity)) :
    List Capacity × Option Nat :=
  match accessToken with
  | none => (loadCapacities allSubscriptionIds api, none)
  | some _ =>
    if loading then (capacities, selectedValue)
    else
      let selectedCapacityId : Option String :=
        selectedValue.bind fun i => (capacities[i]?).map (·.id)
      let subscriptionIds := jsSetDedup (capacities.map (·.subscriptionId))
      if subscriptionIds = [] then
        (loadCapacities allSubscriptionIds api, none)
      else
        let refreshedCapacities := loadCapacities subscriptionIds api
        match selectedCapacityId with
        | none => (refreshedCapacities, none)
        | some cid =>
          match jsFindIndex (fun c => c.id == cid) refreshedCapacities with
          | some newIndex => (refreshedCapacities, some newIndex)
          | none => (refreshedCapacities, none)

/-! ## performCapacityOperation (popup.js lines 939-965) and the pending
guard (setButtonsEnabled, popup.js lines 1257-1267)

The popup runs on the single cooperative browser thread: a click handler
executes synchronously up to the first await of a network call.  The
synchronous prefix of performCapacityOperation reads the selection, then
runs setButtonsEnabled(false), which disables the start, stop and refresh
controls before the state-change POST is issued; a click on a disabled
HTML button dispatches no event.  clickStartButton models one such click
arriving; its Nat component is the number of outbound state-change POSTs
that invocation issues (an invalid or empty selection throws or returns
before any network call). -/

structure UIState where
  capacities : List Capacity
  selectedValue : Option Nat
  startDisabled : Bool
  stopDisabled : Bool
  refreshDisabled : Bool
  deriving DecidableEq

/-- setButtonsEnabled(false): disable the three action-triggering controls. -/
def setButtonsEnabledFalse (s : UIState) : UIState :=
  { s with startDisabled := true, stopDisabled := true, refreshDisabled := true }

/-- Synchronous prefix of performCapacityOperation: state as of the first
transport suspension, and the number of state-change POSTs this invocation
issues. -/
def performCapacityOperation (_operation : String) (s : UIState) : UIState × Nat :=
  match s.selectedValue with
  | none => (s, 0)
  | some i =>
    match s.capacities[i]? with
    | none => (s, 0)
    | some _ => (setButtonsEnabledFalse s, 1)

/-- One user click on the Start Capacity control: ignored while the control
is disabled, otherwise startCapacity runs performCapacityOperation resume. -/
def clickStartButton (s : UIState) : UIState × Nat :=
  if s.startDisabled then (s, 0)
  else performCapacityOperation "resume" s

/-! ## updateCapacitySku (popup.js lines 1073-1134)

Inputs: the capacity list, the dropdown value, the selected sku string and
the outcome of the confirm dialog shown when the capacity is Active.  The
result is the number of PATCH network requests issued.  The early returns
(empty selection, empty sku, sku equal to the current one or the
Current-prefixed placeholder, declined confirmation) issue none; an
out-of-range index throws on the property access before any network call. -/
def updateCapacitySku (capacities : List Capacity) (selectedValue : Option Nat)
    (selectedSku : String) (confirmProceed : Bool) : Nat :=
  match selectedValue with
  | none => 0
  | some i =>
    if selectedSku = "" then 0
    else
      match capacities[i]? with
      | none => 0
      | some capacity =>
        let currentSku := jsOrDefault capacity.skuName "Unknown"
        if selectedSku == currentSku || selectedSku.startsWith "Current:" then 0
        else
          let state := jsOrDefault capacity.state "Unknown"
          if state == "Active" && !confirmProceed then 0
          else 1

/-! ## Lemmas about the hex rendering of generateState -/

theorem toHex_of_lt (n : Nat) (h : n < 16) : toHex n = [hexDigit n] := by
  rw [toHex]
  simp [h]

theorem toHex_of_ge (n : Nat) (h : 16 ≤ n) :
    toHex n = toHex (n / 16) ++ [hexDigit (n % 16)] := by
  rw [toHex]
  simp [Nat.not_lt.mpr h]

theorem last2_append (l m : List Char) (h : 2 ≤ m.length) :
    last2 (l ++ m) = last2 m := by
  unfold last2
  rw [List.length_append, List.drop_append_eq_append_drop,
    List.drop_eq_nil_of_le (by omega), List.nil_append]
  congr 1
  omega

/-- Each word contributes exactly the hex digits of its low byte:
the second-to-last and last base-16 digits. -/
theorem stateWord_eq (w : Nat) :
    stateWord w = [hexDigit (w / 16 % 16), hexDigit (w % 16)] := by
  by_cases h16 : w < 16
  · unfold stateWord last2
    rw [toHex_of_lt w h16]
    have h1 : w / 16 % 16 = 0 := by omega
    have h2 : w % 16 = w := by omega
    rw [h1, h2]
    rfl
  · by_cases h256 : w < 256
    · have hd : w / 16 < 16 := by omega
      have h1 : toHex w = [hexDigit (w / 16), hexDigit (w % 16)] := by
        rw [toHex_of_ge w (by omega), toHex_of_lt _ hd]
        rfl
      unfold stateWord last2
      rw [h1]
      have h2 : w / 16 % 16 = w / 16 := by omega
      rw [h2]
      rfl
    · have h1 : toHex w =
          toHex (w / 16 / 16) ++ [hexDigit (w / 16 % 16), hexDigit (w % 16)] := by
        rw [toHex_of_ge w (by omega), toHex_of_ge (w / 16) (by omega)]
        simp
      unfold stateWord
      rw [h1,
        show '0' :: (toHex (w / 16 / 16) ++ [hexDigit (w / 16 % 16), hexDigit (w % 16)])
          = ('0' :: toHex (w / 16 / 16)) ++ [hexDigit (w / 16 % 16), hexDigit (w % 16)]
          from rfl,
        last2_append _ _ (by simp)]
      rfl

theorem stateWord_mod (w : Nat) : stateWord w = stateWord (w % 256) := by
  rw [stateWord_eq, stateWord_eq]
  have h1 : w % 256 % 16 = w % 16 := by omega
  have h2 : w % 256 / 16 % 16 = w / 16 % 16 := by omega
  rw [h1, h2]

theorem stateWord_length (w : Nat) : (stateWord w).length = 2 := by
  rw [stateWord_eq]
  rfl

/-- Claim C10: for any four random 32-bit words, generateState returns a
string of exactly 8 characters, each word contributing only the last two
hexadecimal digits of CHR-30 prepended to its hex rendering; the state is
fully determined by the low 8 bits of each word, so it carries at most 32
of the 128 bits of randomness drawn. -/
theorem generateState_spec (w0 w1 w2 w3 : Nat)
    (_h0 : w0 < 2 ^ 32) (_h1 : w1 < 2 ^ 32) (_h2 : w2 < 2 ^ 32) (_h3 : w3 < 2 ^ 32) :
    (generateState w0 w1 w2 w3).length = 8 ∧
    generateState w0 w1 w2 w3 =
      generateState (w0 % 256) (w1 % 256) (w2 % 256) (w3 % 256) := by
  constructor
  · simp [generateState, stateWord_length]
  · unfold generateState
    rw [stateWord_mod w0, stateWord_mod w1, stateWord_mod w2, stateWord_mod w3]

/-- Witness for C10 at four concrete 32-bit words. -/
theorem generateState_spec_witness :
    (generateState 1 2 4294967295 300).length = 8 ∧
    generateState 1 2 4294967295 300 =
      generateState (1 % 256) (2 % 256) (4294967295 % 256) (300 % 256) :=
  generateState_spec 1 2 4294967295 300 (by norm_num) (by norm_num)
    (by norm_num) (by norm_num)

/-- Claim C3: a cached credential whose remaining lifetime is below the
2-minute expiry buffer is not returned: getCachedToken resolves none, so
acquisition is triggered instead. -/
theorem getCachedToken_expiry_buffer (s : TokenStorage) (now expiryTime : Int)
    (hexp : s.tokenExpiry = some expiryTime)
    (hlow : expiryTime - now < tokenBufferMs) :
    getCachedToken s now = none := by
  have hge : now ≥ expiryTime - tokenBufferMs := by omega
  cases ha : s.accessToken with
  | none => simp [getCachedToken, ha, hexp]
  | some tok =>
    by_cases htok : tok = []
    · simp [getCachedToken, ha, hexp, htok]
    · by_cases hfp : fingerprintOk s.sessionInfo tok
      · simp [getCachedToken, ha, hexp, htok, hfp, hge]
      · simp [getCachedToken, ha, hexp, htok, hfp]

/-- Witness for C3: 100 seconds of lifetime remain, below the 120-second
buffer, and the read misses. -/
theorem getCachedToken_expiry_buffer_witness :
    getCachedToken
      { accessToken := some [97], tokenExpiry := some 100000, sessionInfo := none }
      0 = none :=
  getCachedToken_expiry_buffer _ 0 100000 rfl (by decide)

/-- Claim C2 (amended): whenever the stored session fingerprint differs
from the hash of the currently stored token, the next getCachedToken read
is treated as a miss and resolves none. -/
theorem getCachedToken_fingerprint_guard (s : TokenStorage) (now : Int)
    (tok : List Nat) (si : SessionInfo)
    (ha : s.accessToken = some tok) (hs : s.sessionInfo = some si)
    (hmis : si.tokenHash ≠ generateTokenHash tok) :
    getCachedToken s now = none := by
  cases he : s.tokenExpiry with
  | none => simp [getCachedToken, ha, he]
  | some expiryTime =>
    by_cases htok : tok = []
    · simp [getCachedToken, ha, he, htok]
    · simp [getCachedToken, ha, he, htok, fingerprintOk, hs, hmis]

/-- Witness for C2 (amended): a fingerprint that disagrees with the stored
token hash makes the read miss. -/
theorem getCachedToken_fingerprint_guard_witness :
    getCachedToken
      { accessToken := some [97]
        tokenExpiry := some 10000000
        sessionInfo := some
          { cachedAt := 0, tenantId := none, userPrincipalName := none,
            tokenHash := "different" } }
      0 = none :=
  getCachedToken_fingerprint_guard _ 0 [97] _ rfl rfl (by decide)

/-- The stored token before mutation: the code units 65 and 98 (Ab).
Its generateTokenHash is 65 * 31 + 98 = 2113. -/
def tokenA : List Nat := [65, 98]

/-- The stored token after a mutation that does not update the
fingerprint: the code units 66 and 67 (BC).  The rolling hash collides:
66 * 31 + 67 = 2113 as well.  (Mutations beyond the first 100 code units
collide in the same way, since only those units are hashed.) -/
def tokenB : List Nat := [66, 67]

/-- Storage after the mutation: the token is tokenB while the fingerprint
is still the hash of tokenA. -/
def corruptedStorage : TokenStorage :=
  { accessToken := some tokenB
    tokenExpiry := some 10000000
    sessionInfo := some
      { cachedAt := 0, tenantId := none, userPrincipalName := none,
        tokenHash := generateTokenHash tokenA } }

/-- Counterexample to C2 as stated: this mutation of the stored token
leaves generateTokenHash unchanged, so the next getCachedToken read is a
hit (some tokenB), not a miss. -/
theorem getCachedToken_fingerprint_counterexample :
    tokenA ≠ tokenB ∧ getCachedToken corruptedStorage 0 = some tokenB := by
  constructor
  · decide
  · decide

/-- Claim C8: an authorization response whose echoed state differs from the
state generated for the request is rejected with the CSRF error; no token
is extracted (the result is an error, not a TokenInfo), so nothing is
persisted by the caller. -/
theorem extractTokenFromUrl_state_mismatch (params : OAuthFragment)
    (expectedState : String) (h : params.state ≠ some expectedState) :
    extractTokenFromUrl params expectedState =
      Except.error "State parameter mismatch - possible CSRF attack" := by
  unfold extractTokenFromUrl
  rw [if_pos h]

/-- Witness for C8: a response carrying a token but the wrong state is
rejected with the CSRF error. -/
theorem extractTokenFromUrl_state_mismatch_witness :
    extractTokenFromUrl
      { state := some "attacker", error := none, errorDescription := none,
        accessToken := some "tok", expiresIn := some "3600", tokenType := some "Bearer" }
      "expected" = Except.error "State parameter mismatch - possible CSRF attack" :=
  extractTokenFromUrl_state_mismatch _ "expected" (by decide)

/-- Claim C9: decodeJwtToken is total over arbitrary input strings and
never propagates a fault: with the wrong number of dot-separated parts,
with a payload the base64 decoder rejects, or with a payload the JSON
parser rejects, it returns none (no session context) for every choice of
the two platform builtins. -/
theorem decodeJwtToken_malformed_yields_none {α : Type}
    (atob : List Char → Option (List Char)) (jsonParse : List Char → Option α)
    (token : List Char) :
    ((splitOnDot token).length ≠ 3 → decodeJwtToken atob jsonParse token = none) ∧
    (∀ hd payload sig, splitOnDot token = [hd, payload, sig] →
      atob (base64urlTranslate (padPayload payload)) = none →
      decodeJwtToken atob jsonParse token = none) ∧
    (∀ hd payload sig decoded, splitOnDot token = [hd, payload, sig] →
      atob (base64urlTranslate (padPayload payload)) = some decoded →
      jsonParse decoded = none →
      decodeJwtToken atob jsonParse token = none) := by
  refine ⟨?_, ?_, ?_⟩
  · intro hlen
    unfold decodeJwtToken
    split
    · rename_i a b c heq
      rw [heq] at hlen
      simp at hlen
    · rfl
  · intro hd payload sig hsp hatob
    simp [decodeJwtToken, hsp, hatob]
  · intro hd payload sig decoded hsp hatob hparse
    simp [decodeJwtToken, hsp, hatob, hparse]

/-- A base64 decoder stub that accepts everything (identity). -/
def atobOkW : List Char → Option (List Char) := fun l => some l

/-- A base64 decoder stub that rejects everything. -/
def atobFailW : List Char → Option (List Char) := fun _ => none

/-- A JSON parser stub that rejects everything. -/
def jsonParseFailW : List Char → Option Nat := fun _ => none

/-- Witness for C9 at the three concrete malformed shapes. -/
theorem decodeJwtToken_malformed_yields_none_witness :
    decodeJwtToken atobOkW jsonParseFailW ['a', 'b'] = none ∧
    decodeJwtToken atobFailW jsonParseFailW ['a', '.', 'b', '.', 'c'] = none ∧
    decodeJwtToken atobOkW jsonParseFailW ['a', '.', 'b', '.', 'c'] = none := by
  refine ⟨?_, ?_, ?_⟩
  · exact (decodeJwtToken_malformed_yields_none atobOkW jsonParseFailW ['a', 'b']).1
      (by decide)
  · exact (decodeJwtToken_malformed_yields_none atobFailW jsonParseFailW
      ['a', '.', 'b', '.', 'c']).2.1 ['a'] ['b'] ['c'] (by decide) rfl
  · exact (decodeJwtToken_malformed_yields_none atobOkW jsonParseFailW
      ['a', '.', 'b', '.', 'c']).2.2 ['a'] ['b'] ['c']
      (base64urlTranslate (padPayload ['b'])) (by decide) rfl rfl

/-- Claim C1: on a single 401, if silent renewal yields a new credential
and the single retried request succeeds, makeApiCall invokes the request
transport exactly twice, returns a success, and (for a GET with a
non-empty retry body) returns exactly the retried call response parsed;
if silent renewal fails, it performs one interactive acquisition and
retries once more, and when that retry also fails (non-403) it raises the
terminal authorization error. -/
theorem makeApiCall_401_retry (method : HttpMethod) (tok newTok itok : String)
    (tr1 tr2 : Nat → HttpResponse) (ia : Except String String)
    (h1a : (tr1 0).status = 401) (h1b : responseOk (tr1 1) = true)
    (h2a : (tr2 0).status = 401) (h2b : responseOk (tr2 1) = false)
    (h2c : (tr2 1).status ≠ 403) :
    (makeApiCall method (some tok) tr1 (some newTok) ia).2 = 2 ∧
    (∃ v, (makeApiCall method (some tok) tr1 (some newTok) ia).1 = Except.ok v) ∧
    (method = HttpMethod.GET → (tr1 1).body ≠ "" →
      (makeApiCall method (some tok) tr1 (some newTok) ia).1 =
        Except.ok (ApiResult.parsed (tr1 1).body)) ∧
    makeApiCall method (some tok) tr2 none (Except.ok itok) =
      (Except.error ("API call failed after authentication retry: " ++
        toString (tr2 1).status ++ " " ++ (tr2 1).statusText), 2) := by
  have hko1 : responseOk (tr1 0) = false := by
    unfold responseOk
    rw [h1a]
    decide
  have hko2 : responseOk (tr2 0) = false := by
    unfold responseOk
    rw [h2a]
    decide
  have e1 : makeApiCall method (some tok) tr1 (some newTok) ia =
      (finishRetrySilent method (tr1 1), 2) := by
    simp [makeApiCall, hko1, h1a]
  have e2 : makeApiCall method (some tok) tr2 none (Except.ok itok) =
      (finishRetryInteractive method (tr2 1), 2) := by
    simp [makeApiCall, hko2, h2a]
  refine ⟨by rw [e1], ?_, ?_, ?_⟩
  · rw [e1]
    unfold finishRetrySilent
    rw [h1b]
    simp only [if_true]
    split
    · exact ⟨_, rfl⟩
    · split
      · exact ⟨_, rfl⟩
      · split
        · exact ⟨_, rfl⟩
        · exact ⟨_, rfl⟩
  · intro hm hbody
    subst hm
    rw [e1]
    simp [finishRetrySilent, h1b, hbody]
  · rw [e2]
    simp [finishRetryInteractive, h2b, h2c]

/-- A transport answering 401 then success with a non-empty body. -/
def trRetryOk : Nat → HttpResponse := fun n =>
  if n = 0 then { status := 401, statusText := "Unauthorized", body := "expired" }
  else { status := 200, statusText := "OK", body := "value" }

/-- A transport answering 401 then a 500 failure. -/
def trRetryFail : Nat → HttpResponse := fun n =>
  if n = 0 then { status := 401, statusText := "Unauthorized", body := "expired" }
  else { status := 500, statusText := "Server Error", body := "oops" }

/-- Witness for C1: the concrete retry-then-succeed and both-retries-fail
scenarios. -/
theorem makeApiCall_401_retry_witness :
    (makeApiCall HttpMethod.GET (some "t") trRetryOk (some "n") (Except.ok "i")).2 = 2 ∧
    (makeApiCall HttpMethod.GET (some "t") trRetryOk (some "n") (Except.ok "i")).1 =
      Except.ok (ApiResult.parsed "value") ∧
    makeApiCall HttpMethod.GET (some "t") trRetryFail none (Except.ok "i") =
      (Except.error "API call failed after authentication retry: 500 Server Error", 2) := by
  obtain ⟨hcount, -, hget, herr⟩ :=
    makeApiCall_401_retry HttpMethod.GET "t" "n" "i" trRetryOk trRetryFail
      (Except.ok "i") (by decide) (by decide) (by decide) (by decide) (by decide)
  refine ⟨hcount, ?_, ?_⟩
  · exact hget rfl (by decide)
  · exact herr

/-- Whether an Except result is a success. -/
def exceptIsOk {ε α : Type} : Except ε α → Bool
  | Except.ok _ => true
  | Except.error _ => false

/-- Every capacity of a successfully enumerated subscription appears in
the aggregated load, whatever the other subscriptions return. -/
theorem mem_loadCapacities (subscriptionIds : List String)
    (api : String → Except String (List RawCapacity)) (sid : String)
    (caps : List Capacity) (c : Capacity) (hmem : sid ∈ subscriptionIds)
    (hok : getCapacitiesForSubscription (api sid) sid = Except.ok caps)
    (hc : c ∈ caps) : c ∈ loadCapacities subscriptionIds api := by
  induction subscriptionIds with
  | nil => cases hmem
  | cons s rest ih =>
    simp only [loadCapacities]
    cases hmem with
    | head =>
      rw [hok]
      exact List.mem_append_left _ hc
    | tail _ hmem =>
      exact List.mem_append_right _ (ih hmem)

/-- Claim C5: when getCapacitiesForSubscription fails for exactly one of
the N scopes, the aggregate produced by loadCapacities still contains
every resource returned by the other N-1 scopes. -/
theorem loadCapacities_scope_isolation (subscriptionIds : List String)
    (api : String → Except String (List RawCapacity))
    (_hone : (subscriptionIds.countP fun sid =>
      !(exceptIsOk (getCapacitiesForSubscription (api sid) sid))) = 1) :
    ∀ sid ∈ subscriptionIds, ∀ caps,
      getCapacitiesForSubscription (api sid) sid = Except.ok caps →
      ∀ c ∈ caps, c ∈ loadCapacities subscriptionIds api := by
  intro sid hmem caps hok c hc
  exact mem_loadCapacities subscriptionIds api sid caps c hmem hok hc

/-- The raw capacity listed in the two healthy subscriptions. -/
def rawCapA : RawCapacity :=
  { id := "/subscriptions/sub1/capA", name := "capA",
    skuName := some "F2", state := some "Active" }

/-- A per-subscription transport where exactly sub2 fails hard. -/
def apiOneBad : String → Except String (List RawCapacity) := fun sid =>
  if sid = "sub2" then Except.error "boom" else Except.ok [rawCapA]

/-- rawCapA as annotated by discovery within sub1. -/
def capASub1 : Capacity :=
  { id := "/subscriptions/sub1/capA", name := "capA", skuName := some "F2",
    state := some "Active", subscriptionId := "sub1",
    displayName := "capA (Active)" }

/-- Witness for C5: scope sub2 of three fails, and sub1 still contributes
its capacity to the aggregate. -/
theorem loadCapacities_scope_isolation_witness :
    (["sub1", "sub2", "sub3"].countP fun sid =>
      !(exceptIsOk (getCapacitiesForSubscription (apiOneBad sid) sid))) = 1 ∧
    capASub1 ∈ loadCapacities ["sub1", "sub2", "sub3"] apiOneBad := by
  refine ⟨by decide, ?_⟩
  exact loadCapacities_scope_isolation ["sub1", "sub2", "sub3"] apiOneBad
    (by decide) "sub1" (by decide) [capASub1] rfl capASub1 (by decide)

/-! ## Helper facts for selection continuity -/

theorem foldl_dedup_ne_nil (l : List String) (acc : List String) (h : acc ≠ []) :
    l.foldl (fun acc x => if x ∈ acc then acc else acc ++ [x]) acc ≠ [] := by
  induction l generalizing acc with
  | nil => exact h
  | cons x xs ih =>
    simp only [List.foldl_cons]
    apply ih
    by_cases hx : x ∈ acc
    · simpa [hx]
    · simp only [hx, if_false]
      intro habs
      exact absurd (List.append_eq_nil.mp habs).2 (by simp)

theorem jsSetDedup_ne_nil (l : List String) (h : l ≠ []) : jsSetDedup l ≠ [] := by
  cases l with
  | nil => exact absurd rfl h
  | cons y ys =>
    unfold jsSetDedup
    simp only [List.foldl_cons]
    exact foldl_dedup_ne_nil ys _ (by simp)

theorem jsFindIndex_eq_none {α : Type} (p : α → Bool) (l : List α)
    (h : ∀ x ∈ l, p x = false) : jsFindIndex p l = none := by
  induction l with
  | nil => rfl
  | cons y ys ih =>
    simp [jsFindIndex, h y (List.mem_cons_self y ys),
      ih fun x hx => h x (List.mem_cons_of_mem y hx)]

theorem jsFindIndex_found {α : Type} (p : α → Bool) (l : List α) (x : α)
    (hx : x ∈ l) (hp : p x = true) :
    ∃ j, jsFindIndex p l = some j := by
  induction l with
  | nil => cases hx
  | cons y ys ih =>
    by_cases hy : p y
    · exact ⟨0, by simp [jsFindIndex, hy]⟩
    · have hxys : x ∈ ys := by
        cases hx with
        | head => exact absurd hp (by simpa using hy)
        | tail _ h => exact h
      obtain ⟨j, hj⟩ := ih hxys
      exact ⟨j + 1, by simp [jsFindIndex, hy, hj]⟩

theorem jsFindIndex_some {α : Type} (p : α → Bool) (l : List α) (j : Nat)
    (h : jsFindIndex p l = some j) :
    ∃ d, l[j]? = some d ∧ d ∈ l ∧ p d = true := by
  induction l generalizing j with
  | nil => cases h
  | cons y ys ih =>
    by_cases hy : p y
    · simp only [jsFindIndex, hy, if_true, Option.some_inj] at h
      subst h
      exact ⟨y, by simp, List.mem_cons_self y ys, hy⟩
    · have hh : jsFindIndex p (y :: ys) = (jsFindIndex p ys).map (· + 1) := by
        simp [jsFindIndex, hy]
      rw [hh] at h
      cases hys : jsFindIndex p ys with
      | none =>
        rw [hys] at h
        cases h
      | some jp =>
        rw [hys] at h
        simp only [Option.map_some', Option.some_inj] at h
        subst h
        obtain ⟨d, hd, hdm, hp⟩ := ih jp hys
        exact ⟨d, by simpa using hd, List.mem_cons_of_mem y hdm, hp⟩

/-- Claim C6: after a refresh with a previously selected resource id, if
no entry of the fresh sequence has that id the selection is cleared, and
if some entry has that id then the selection points at an entry of the
fresh sequence bearing that id, regardless of its new position. -/
theorem refreshCapacities_selection_continuity (tok : String)
    (allSubscriptionIds : List String) (capacities : List Capacity) (i : Nat)
    (cap : Capacity) (api : String → Except String (List RawCapacity))
    (hsel : capacities[i]? = some cap) :
    ((∀ c ∈ (refreshCapacities (some tok) false allSubscriptionIds capacities
        (some i) api).1, c.id ≠ cap.id) →
      (refreshCapacities (some tok) false allSubscriptionIds capacities
        (some i) api).2 = none) ∧
    (∀ c ∈ (refreshCapacities (some tok) false allSubscriptionIds capacities
        (some i) api).1, c.id = cap.id →
      ∃ j d,
        (refreshCapacities (some tok) false allSubscriptionIds capacities
          (some i) api).2 = some j ∧
        ((refreshCapacities (some tok) false allSubscriptionIds capacities
          (some i) api).1)[j]? = some d ∧
        d.id = cap.id) := by
  have hne : capacities ≠ [] := by
    intro habs
    rw [habs] at hsel
    simp at hsel
  have hsubne : jsSetDedup (capacities.map (·.subscriptionId)) ≠ [] :=
    jsSetDedup_ne_nil _ (by simpa using hne)
  have hr : refreshCapacities (some tok) false allSubscriptionIds capacities
      (some i) api =
      (match jsFindIndex (fun c => c.id == cap.id)
        (loadCapacities (jsSetDedup (capacities.map (·.subscriptionId))) api) with
      | some newIndex =>
        (loadCapacities (jsSetDedup (capacities.map (·.subscriptionId))) api,
          some newIndex)
      | none =>
        (loadCapacities (jsSetDedup (capacities.map (·.subscriptionId))) api,
          none)) := by
    simp [refreshCapacities, hsubne, hsel]
  cases hfi : jsFindIndex (fun c => c.id == cap.id)
      (loadCapacities (jsSetDedup (capacities.map (·.subscriptionId))) api) with
  | none =>
    rw [hfi] at hr
    have hr2 : refreshCapacities (some tok) false allSubscriptionIds capacities
        (some i) api =
        (loadCapacities (jsSetDedup (capacities.map (·.subscriptionId))) api,
          none) := hr
    constructor
    · intro _
      rw [hr2]
    · intro c hc hcid
      exfalso
      obtain ⟨j, hj⟩ := jsFindIndex_found (fun c : Capacity => c.id == cap.id) _ c
        (by rw [hr2] at hc; exact hc) (by simp [hcid])
      rw [hfi] at hj
      cases hj
  | some j =>
    rw [hfi] at hr
    have hr2 : refreshCapacities (some tok) false allSubscriptionIds capacities
        (some i) api =
        (loadCapacities (jsSetDedup (capacities.map (·.subscriptionId))) api,
          some j) := hr
    obtain ⟨d, hd, hdm, hp⟩ :=
      jsFindIndex_some (fun c : Capacity => c.id == cap.id) _ j hfi
    constructor
    · intro hall
      exact absurd (eq_of_beq hp) (hall d (by rw [hr2]; exact hdm))
    · intro c hc hcid
      exact ⟨j, d, by rw [hr2], by rw [hr2]; exact hd, eq_of_beq hp⟩

/-- The fresh per-subscription listing used in the C6 witness: three raw
capacities with ids C, X, B in that order. -/
def apiReordered : String → Except String (List RawCapacity) := fun _ =>
  Except.ok
    [{ id := "C", name := "capC", skuName := some "F2", state := some "Active" },
     { id := "X", name := "capX", skuName := some "F2", state := some "Paused" },
     { id := "B", name := "capB", skuName := some "F4", state := some "Active" }]

/-- The fresh listing for the removal scenario: B is gone. -/
def apiRemoved : String → Except String (List RawCapacity) := fun _ =>
  Except.ok
    [{ id := "C", name := "capC", skuName := some "F2", state := some "Active" }]

/-- The in-memory capacity list before the refresh: X then B, both owned
by subscription sub1, with B selected (index 1). -/
def capsBefore : List Capacity :=
  [{ id := "X", name := "capX", skuName := some "F2", state := some "Paused",
     subscriptionId := "sub1", displayName := "capX (Paused)" },
   { id := "B", name := "capB", skuName := some "F4", state := some "Active",
     subscriptionId := "sub1", displayName := "capB (Active)" }]

/-- Witness for C6: with B present after reordering the selection lands on
an entry with id B; with B removed the selection is cleared. -/
theorem refreshCapacities_selection_continuity_witness :
    (∃ j d,
      (refreshCapacities (some "t") false [] capsBefore (some 1) apiReordered).2 =
        some j ∧
      ((refreshCapacities (some "t") false [] capsBefore
        (some 1) apiReordered).1)[j]? = some d ∧
      d.id = "B") ∧
    (refreshCapacities (some "t") false [] capsBefore (some 1) apiRemoved).2 =
      none := by
  constructor
  · exact (refreshCapacities_selection_continuity "t" [] capsBefore 1
      (capsBefore.get ⟨1, by decide⟩) apiReordered (by decide)).2
      { id := "B", name := "capB", skuName := some "F4", state := some "Active",
        subscriptionId := "sub1", displayName := "capB (Active)" }
      (by decide) (by decide)
  · exact (refreshCapacities_selection_continuity "t" [] capsBefore 1
      (capsBefore.get ⟨1, by decide⟩) apiRemoved (by decide)).1 (by decide)

/-- The JS fallback `sku?.name || 'Unknown'` never produces the empty
string when the default is non-empty. -/
theorem jsOrDefault_unknown_ne_empty (s : Option String) :
    jsOrDefault s "Unknown" ≠ "" := by
  unfold jsOrDefault
  cases s with
  | none => decide
  | some v =>
    by_cases hv : v = ""
    · simp [hv]
    · simp [hv]

/-- Claim C7: a sku-change request whose requested sku equals the
capacity current sku is rejected (the method returns after logging)
without issuing any network call. -/
theorem updateCapacitySku_noop_guard (capacities : List Capacity) (i : Nat)
    (cap : Capacity) (selectedSku : String) (confirmProceed : Bool)
    (hcap : capacities[i]? = some cap)
    (heq : selectedSku = jsOrDefault cap.skuName "Unknown") :
    updateCapacitySku capacities (some i) selectedSku confirmProceed = 0 := by
  subst heq
  simp [updateCapacitySku, hcap, jsOrDefault_unknown_ne_empty cap.skuName]

/-- The capacity used by the C4 and C7 witnesses. -/
def capF4 : Capacity :=
  { id := "B", name := "capB", skuName := some "F4", state := some "Active",
    subscriptionId := "sub1", displayName := "capB (Active)" }

/-- Witness for C7: requesting the current sku F4 issues zero PATCH calls. -/
theorem updateCapacitySku_noop_guard_witness :
    updateCapacitySku [capF4] (some 0) "F4" true = 0 :=
  updateCapacitySku_noop_guard [capF4] 0 capF4 "F4" true rfl rfl

/-- Claim C4: with a valid selection and an enabled start control, a click
issues exactly one state-change POST and disables the triggering control
before its first transport suspension, so a second click in immediate
succession (while the first operation is pending) issues none: exactly one
outbound state-change call in total. -/
theorem clickStart_at_most_one_pending (s : UIState) (i : Nat) (cap : Capacity)
    (henabled : s.startDisabled = false) (hsel : s.selectedValue = some i)
    (hcap : s.capacities[i]? = some cap) :
    (clickStartButton s).2 = 1 ∧
    (clickStartButton (clickStartButton s).1).2 = 0 ∧
    (clickStartButton s).2 + (clickStartButton (clickStartButton s).1).2 = 1 := by
  have h1 : clickStartButton s = (setButtonsEnabledFalse s, 1) := by
    simp [clickStartButton, henabled, performCapacityOperation, hsel, hcap]
  rw [h1]
  refine ⟨rfl, ?_, ?_⟩
  · simp [clickStartButton, setButtonsEnabledFalse]
  · simp [clickStartButton, setButtonsEnabledFalse]

/-- The UI state of the C4 witness: one capacity selected, controls enabled. -/
def uiReady : UIState :=
  { capacities := [capF4], selectedValue := some 0,
    startDisabled := false, stopDisabled := false, refreshDisabled := false }

/-- Witness for C4: two immediate clicks from the ready state issue one
POST then zero. -/
theorem clickStart_at_most_one_pending_witness :
    (clickStartButton uiReady).2 = 1 ∧
    (clickStartButton (clickStartButton uiReady).1).2 = 0 ∧
    (clickStartButton uiReady).2 +
      (clickStartButton (clickStartButton uiReady).1).2 = 1 :=
  clickStart_at_most_one_pending uiReady 0 capF4 rfl rfl rfl

end FabricCapacityManager
